import Mathlib

/-!
Shallow embedding of `src/src/index.ts` (the fenio/setup-k0s GitHub Action).

External commands are modelled through explicit environments: the environment
supplies, for each command the program would execute, the exit code and the
captured stdout.  Each TypeScript function becomes a Lean function from its
environment to the list of effect events it performs together with its result
(`Except cause Unit`, matching the throw/return behaviour of the source).
Log calls (`core.info`, `core.startGroup`, ...) carry no state and are not
modelled as events; `core.warning` is tracked where a claim mentions it.
-/

namespace SetupK0s

/-- JavaScript `String.prototype.trim()` (used on captured stdout at
index.ts lines 77 and 108): strip leading and trailing whitespace.
Defined over the character list so it evaluates inside the kernel. -/
def jsTrim (s : String) : String :=
  ⟨((s.data.dropWhile Char.isWhitespace).reverse.dropWhile
      Char.isWhitespace).reverse⟩

/-! ### Architecture mapping (index.ts lines 80-94)

The `switch (arch)` statement of `installK0s`, with its two fall-through
cases and the throwing `default` branch, embedded as a total function to
`Option`: `none` is the `Unsupported architecture` throw. -/

def mapArch (arch : String) : Option String :=
  if arch = "x86_64" then some "amd64"
  else if arch = "aarch64" then some "arm64"
  else if arch = "arm64" then some "arm64"
  else if arch = "armv7l" then some "arm"
  else none

/-! ### Installer (index.ts lines 64-138, `installK0s`) -/

/-- Effect events performed by `installK0s`, in program order:
`uname -m`, the `curl` to the GitHub releases API (network), the `curl`
download of the binary (network), `sudo install`, `rm -f /tmp/k0s`,
and the `k0s version` verification. -/
inductive IEvent where
  | uname
  | resolveLatest
  | download (url : String)
  | installBinary
  | removeTmp
  | verify
deriving DecidableEq, Repr

/-- The two events that reach the network: the release-metadata query and
the binary download. -/
def isNetworkEvent : IEvent → Bool
  | .resolveLatest => true
  | .download _ => true
  | _ => false

/-- Environment for one run of `installK0s`: exit codes and captured stdout
of each external command it may execute.  `latestTag k` is the stdout the
release-metadata endpoint would return on its `k`-th invocation, so that a
changing upstream "latest" is expressible. -/
structure InstallEnv where
  unameCode : Nat
  unameOut : String
  resolveCode : Nat
  latestTag : Nat → String
  downloadCode : Nat
  installCode : Nat
  rmCode : Nat
  verifyCode : Nat

/-- The distinct failure points of `installK0s`; each corresponds to one
`throw` site (a failing `exec` in default mode, or the `default` branch of
the architecture switch).  The source wraps all of them into
`Failed to install k0s: ...`. -/
inductive InstallCause where
  | unameFailed (code : Nat)
  | unsupportedArchitecture (arch : String)
  | resolveFailed (code : Nat)
  | downloadFailed (code : Nat)
  | installCmdFailed (code : Nat)
  | rmFailed (code : Nat)
  | verifyFailed (code : Nat)
deriving DecidableEq, Repr

/-- Download URL construction (index.ts line 113). -/
def downloadUrl (version binaryArch : String) : String :=
  "https://github.com/k0sproject/k0s/releases/download/" ++ version
    ++ "/k0s-" ++ version ++ "-" ++ binaryArch

/-- The `actualVersion` value the source computes at lines 99-110: the
explicit specifier, or the trimmed stdout captured at the single
resolution of `"latest"` (invocation index 0). -/
def actualVersion (version : String) (env : InstallEnv) : String :=
  if version = "latest" then jsTrim (env.latestTag 0) else version

/-- Tail of `installK0s` from the download on (index.ts lines 112-131):
download, `sudo install`, `rm -f` of the temporary file, verification.
Note the `rm` is a plain sequential statement, not a `finally` clause. -/
def installTail (ver binaryArch : String) (env : InstallEnv) (ev : List IEvent) :
    List IEvent × Except InstallCause Unit :=
  let ev := ev ++ [IEvent.download (downloadUrl ver binaryArch)]
  if env.downloadCode ≠ 0 then (ev, .error (.downloadFailed env.downloadCode))
  else
    let ev := ev ++ [IEvent.installBinary]
    if env.installCode ≠ 0 then (ev, .error (.installCmdFailed env.installCode))
    else
      let ev := ev ++ [IEvent.removeTmp]
      if env.rmCode ≠ 0 then (ev, .error (.rmFailed env.rmCode))
      else
        let ev := ev ++ [IEvent.verify]
        if env.verifyCode ≠ 0 then (ev, .error (.verifyFailed env.verifyCode))
        else (ev, .ok ())

/-- `installK0s` (index.ts lines 64-138): detect the architecture with
`uname -m` (trimmed stdout), map it through the switch, resolve `"latest"`
through the releases API when asked, then run `installTail`. -/
def installK0s (version : String) (env : InstallEnv) :
    List IEvent × Except InstallCause Unit :=
  let ev := [IEvent.uname]
  if env.unameCode ≠ 0 then (ev, .error (.unameFailed env.unameCode))
  else
    match mapArch (jsTrim env.unameOut) with
    | none => (ev, .error (.unsupportedArchitecture (jsTrim env.unameOut)))
    | some binaryArch =>
      if version = "latest" then
        let ev := ev ++ [IEvent.resolveLatest]
        if env.resolveCode ≠ 0 then (ev, .error (.resolveFailed env.resolveCode))
        else installTail (actualVersion version env) binaryArch env ev
      else installTail version binaryArch env ev

/-- Recognizer for the release-metadata query event. -/
def isResolveEvent : IEvent → Bool
  | .resolveLatest => true
  | _ => false

/-- Counts how often the release-metadata endpoint was queried in a trace. -/
def resolveCount (tr : List IEvent) : Nat :=
  tr.countP isResolveEvent

/-! ### Timeout input parsing (index.ts line 43)

`parseInt(core.getInput('timeout') || '300', 10)`.  JavaScript `parseInt`
skips leading whitespace, accepts an optional sign, then reads leading
decimal digits; with no digit at all it yields `NaN`.  `NaN` is modelled
as `none`; every `NaN` comparison is false. -/

def digitsToNat (l : List Char) : Nat :=
  l.foldl (fun a c => a * 10 + (c.toNat - 48)) 0

def parseIntJS (s : String) : Option Int :=
  let t := s.data.dropWhile Char.isWhitespace
  let signed : Int × List Char :=
    match t with
    | c :: rest => if c = Char.ofNat 45 then (-1, rest)
                   else if c = Char.ofNat 43 then (1, rest) else (1, t)
    | [] => (1, t)
  let digits := signed.2.takeWhile Char.isDigit
  if digits.isEmpty then none else some (signed.1 * digitsToNat digits)

/-- `core.getInput('timeout') || '300'` then `parseInt` (index.ts line 43):
the empty input string is falsy, so it falls back to `"300"`. -/
def timeoutFromInput (s : String) : Option Int :=
  parseIntJS (if s = "" then "300" else s)

/-! ### Readiness poller (index.ts lines 193-273, `waitForClusterReady`)

Each poll cycle issues up to four probes, short-circuiting on the first
failing layer: `sudo k0s status`, `kubectl cluster-info`, the nodes grep
and the pods grep (for the greps a NONZERO exit means the filter found no
unhealthy line, i.e. the layer passes).  The environment fixes, per cycle
index, the exit code each probe would report in that cycle.

Time: `elapsed = Math.floor((Date.now() - startTime) / 1000)` is computed
at the head of each cycle.  Probes are modelled as instantaneous and the
only passage of time is the 5000 ms sleep ending every non-ready cycle, so
at the head of cycle `n` (counting from 0) `elapsed = 5 * n` seconds. -/

/-- Exit codes of the four layered probes in one poll cycle. -/
structure ProbeCycle where
  statusCode : Nat
  kubectlCode : Nat
  nodesGrepCode : Nat
  podsGrepCode : Nat
deriving DecidableEq, Repr

/-- One cycle reaches the `break` (index.ts line 249) exactly when, in that
cycle, the service probe and the API probe exit 0 and both greps exit
nonzero, evaluated in that order with short-circuiting. -/
def cycleReady (p : ProbeCycle) : Bool :=
  p.statusCode = 0 && (p.kubectlCode = 0 &&
    (p.nodesGrepCode ≠ 0 && p.podsGrepCode ≠ 0))

/-- Seconds elapsed at the head of cycle `n` (see the timing note above). -/
def elapsedAt (n : Nat) : Int := 5 * n

/-- The deadline test `elapsed > timeoutSeconds` (index.ts line 204).
`none` is `NaN`: every comparison against it is false in JavaScript. -/
def deadlineExceeded (elapsed : Int) (timeout : Option Int) : Bool :=
  match timeout with
  | none => false
  | some t => elapsed > t

/-- Result of the polling loop proper: the `break` at some cycle, the
timeout branch at some cycle, or fuel exhaustion (the loop still running
after `fuel` cycles — the source loop has no other exit). -/
inductive PollResult where
  | ready (cycle : Nat)
  | timedOut (cycle : Nat)
  | fuelOut
deriving DecidableEq, Repr

/-- The `while (true)` loop of `waitForClusterReady`, one recursive step
per cycle: deadline check first, then the four-layer probe chain, then
sleep and repeat. -/
def waitLoop (timeout : Option Int) (probes : Nat → ProbeCycle) :
    Nat → Nat → PollResult
  | 0, _ => .fuelOut
  | fuel + 1, n =>
    if deadlineExceeded (elapsedAt n) timeout then .timedOut n
    else if cycleReady (probes n) then .ready n
    else waitLoop timeout probes fuel (n + 1)

/-! ### Diagnostics (index.ts lines 275-298, `showDiagnostics`)

Five probes in order: `k0s status`, the `journalctl` service logs,
`kubectl cluster-info`, the node list, the pod list — every one invoked
with `ignoreReturnCode: true`, so a nonzero exit never throws and never
stops the sequence.  Only a thrown exception (e.g. a missing executable)
aborts the remaining probes; it is caught and logged as a warning, and
`showDiagnostics` always returns normally. -/

/-- Outcome of one diagnostic command: an exit code (tolerated, whatever
its value) or a thrown exception. -/
inductive DiagOutcome where
  | exitCode (code : Nat)
  | thrown (msg : String)
deriving DecidableEq, Repr

/-- Outcomes the environment assigns to the five diagnostic probes. -/
structure DiagEnv where
  statusProbe : DiagOutcome
  logsProbe : DiagOutcome
  clusterInfoProbe : DiagOutcome
  nodesProbe : DiagOutcome
  podsProbe : DiagOutcome
deriving DecidableEq, Repr

/-- The five probe outcomes in source order. -/
def diagProbeList (d : DiagEnv) : List DiagOutcome :=
  [d.statusProbe, d.logsProbe, d.clusterInfoProbe, d.nodesProbe, d.podsProbe]

/-- What `showDiagnostics` did: how many probes were started, and whether
the catch block logged its `core.warning`. -/
structure DiagReport where
  probesAttempted : Nat
  warningLogged : Bool
deriving DecidableEq, Repr

/-- Runs diagnostic probes in order: an exit code lets the next probe run;
a thrown exception stops the sequence and trips the warning. -/
def runDiagProbes : List DiagOutcome → Nat × Bool
  | [] => (0, false)
  | .exitCode _ :: rest =>
    let r := runDiagProbes rest
    (r.1 + 1, r.2)
  | .thrown _ :: _ => (1, true)

/-- `showDiagnostics`: attempt the five probes, catch any exception into a
warning, always return normally. -/
def showDiagnostics (d : DiagEnv) : DiagReport :=
  let r := runDiagProbes (diagProbeList d)
  ⟨r.1, r.2⟩

/-- Result of the whole `waitForClusterReady` call.  `timedOutErr rep` is
the timeout branch: `showDiagnostics` was invoked (once — `rep` is its
report) and then `Error('Timeout waiting for cluster to be ready')` was
thrown; `ok` is the normal return after the `break`. -/
inductive WaitOutcome where
  | ok
  | timedOutErr (rep : DiagReport)
  | nonterm
deriving DecidableEq, Repr

/-- `waitForClusterReady` (index.ts lines 193-273): run the polling loop;
on timeout show diagnostics once, then raise the fatal timeout error. -/
def waitForClusterReady (timeout : Option Int) (probes : Nat → ProbeCycle)
    (d : DiagEnv) (fuel : Nat) : WaitOutcome :=
  match waitLoop timeout probes fuel 0 with
  | .ready _ => .ok
  | .timedOut _ => .timedOutErr (showDiagnostics d)
  | .fuelOut => .nonterm

/-! ### Controller launcher (index.ts lines 140-191, `startK0s`) -/

/-- Effect events of `startK0s`, in program order: the controller-service
registration, the service start, the fixed 10 s sleep, the (idempotent)
`mkdir` of the credential directory, the privileged kubeconfig extraction,
the credential-file write, the `chmod 600`, and the two publications of
the credential path. -/
inductive SEvent where
  | installCtrl
  | startSvc
  | sleepMs (ms : Nat)
  | mkdirKube (dir : String)
  | extractKubeconfig
  | writeFile (path content : String)
  | chmod (mode path : String)
  | setOutput (key value : String)
  | exportVar (key value : String)
deriving DecidableEq, Repr

/-- Environment for `startK0s`: exit codes of its commands, whether the
`mkdir` promise rejects (the source swallows that rejection), the captured
kubeconfig text, and the home directory reported by `os.homedir()`. -/
structure StartEnv where
  home : String
  installCtrlCode : Nat
  startCode : Nat
  mkdirRejects : Bool
  kubeconfigCode : Nat
  kubeconfigOut : String
  chmodCode : Nat

/-- Failure points of `startK0s`; the source wraps each into
`Failed to start k0s: ...`.  The `mkdir` has no cause here: its errors are
swallowed by the inner try/catch (index.ts lines 161-165). -/
inductive StartCause where
  | installCtrlFailed (code : Nat)
  | startFailed (code : Nat)
  | kubeconfigFailed (code : Nat)
  | chmodFailed (code : Nat)
deriving DecidableEq, Repr

/-- `path.join(os.homedir(), '.kube')` (index.ts line 157). -/
def kubeDir (home : String) : String := home ++ "/.kube"

/-- `path.join(kubeconfigDir, 'config')` (index.ts line 158). -/
def kubeconfigPath (home : String) : String := kubeDir home ++ "/config"

/-- `startK0s` (index.ts lines 140-191): register and start the controller
service, sleep 10 s, ensure the `.kube` directory (errors swallowed),
extract the kubeconfig, write it once, `chmod 600` it, then publish the
path as the `kubeconfig` output and the `KUBECONFIG` variable. -/
def startK0s (env : StartEnv) : List SEvent × Except StartCause Unit :=
  let ev := [SEvent.installCtrl]
  if env.installCtrlCode ≠ 0 then
    (ev, .error (.installCtrlFailed env.installCtrlCode))
  else
    let ev := ev ++ [SEvent.startSvc]
    if env.startCode ≠ 0 then (ev, .error (.startFailed env.startCode))
    else
      let ev := ev ++ [SEvent.sleepMs 10000,
                       SEvent.mkdirKube (kubeDir env.home),
                       SEvent.extractKubeconfig]
      if env.kubeconfigCode ≠ 0 then
        (ev, .error (.kubeconfigFailed env.kubeconfigCode))
      else
        let ev := ev ++ [SEvent.writeFile (kubeconfigPath env.home)
                           env.kubeconfigOut,
                         SEvent.chmod "600" (kubeconfigPath env.home)]
        if env.chmodCode ≠ 0 then (ev, .error (.chmodFailed env.chmodCode))
        else
          let ev := ev ++ [SEvent.setOutput "kubeconfig"
                             (kubeconfigPath env.home),
                           SEvent.exportVar "KUBECONFIG"
                             (kubeconfigPath env.home)]
          (ev, .ok ())

/-- Recognizer for credential-file writes in a `startK0s` trace. -/
def isWriteEvent : SEvent → Bool
  | .writeFile _ _ => true
  | _ => false

/-! ### Entry point (index.ts lines 33-62, `main`; lines 5-25, `run`)

`run` dispatches on the persisted `isPost` state: the main phase is the
branch modelled here (the cleanup phase lives in `./cleanup`, outside this
file's source).  `main` saves the cross-phase marker first, reads the
three inputs, then sequences `installK0s`, `startK0s` and, when requested,
`waitForClusterReady`. -/

/-- Events of the main phase.  Installer and launcher events are embedded;
`enterWait` marks `waitForClusterReady` being entered (its
`core.startGroup('Waiting for cluster ready')`). -/
inductive MEvent where
  | saveState (key value : String)
  | installEv (e : IEvent)
  | startEv (e : SEvent)
  | enterWait
deriving DecidableEq, Repr

/-- Environment of one main-phase run: the three raw input strings and the
sub-environments of each phase. -/
structure MainEnv where
  versionInput : String
  waitInput : String
  timeoutInput : String
  install : InstallEnv
  start : StartEnv
  probes : Nat → ProbeCycle
  diag : DiagEnv

/-- The error `main` lets escape to `run`'s `core.setFailed`, tagged by
the phase whose wrapper message it carries. -/
inductive RunError where
  | installFailed (c : InstallCause)
  | startFailed (c : StartCause)
  | waitTimedOut (rep : DiagReport)
deriving DecidableEq, Repr

deriving instance DecidableEq for Except

/-- Result of the main phase: a normal or failed completion, or
nontermination of the readiness loop (fuel exhausted). -/
inductive MainResult where
  | done (r : Except RunError Unit)
  | nonterm
deriving DecidableEq, Repr

/-- `main` (index.ts lines 33-62): save the `isPost` marker, default the
`version` input to `"latest"` (`|| 'latest'` on the falsy empty string),
compute `waitForReady` by strict comparison with `'true'`, parse the
timeout, then run the three phases in order, aborting on the first
failure. -/
def mainPhase (env : MainEnv) (fuel : Nat) : List MEvent × MainResult :=
  let ev := [MEvent.saveState "isPost" "true"]
  let version := if env.versionInput = "" then "latest" else env.versionInput
  let waitForReady := env.waitInput = "true"
  let timeout := timeoutFromInput env.timeoutInput
  let inst := installK0s version env.install
  let ev := ev ++ inst.1.map MEvent.installEv
  match inst.2 with
  | .error c => (ev, .done (.error (.installFailed c)))
  | .ok _ =>
    let st := startK0s env.start
    let ev := ev ++ st.1.map MEvent.startEv
    match st.2 with
    | .error c => (ev, .done (.error (.startFailed c)))
    | .ok _ =>
      if waitForReady then
        let ev := ev ++ [MEvent.enterWait]
        match waitForClusterReady timeout env.probes env.diag fuel with
        | .ok => (ev, .done (.ok ()))
        | .timedOutErr rep => (ev, .done (.error (.waitTimedOut rep)))
        | .nonterm => (ev, .nonterm)
      else (ev, .done (.ok ()))

/-- Helper: with a failing `uname`, the installer aborts at once. -/
theorem installK0s_uname_failed (version : String) (env : InstallEnv)
    (h : env.unameCode ≠ 0) :
    installK0s version env
      = ([IEvent.uname], .error (.unameFailed env.unameCode)) := by
  simp [installK0s, h]

/-- Helper: with an unsupported architecture, the installer aborts after
the sole `uname` call. -/
theorem installK0s_arch_none (version : String) (env : InstallEnv)
    (h1 : env.unameCode = 0) (h2 : mapArch (jsTrim env.unameOut) = none) :
    installK0s version env
      = ([IEvent.uname],
         .error (.unsupportedArchitecture (jsTrim env.unameOut))) := by
  simp [installK0s, h1, h2]

/-- Helper: `"latest"` with a failing resolution aborts right after the
single resolution call. -/
theorem installK0s_resolve_failed (env : InstallEnv) (ba : String)
    (h1 : env.unameCode = 0) (h2 : mapArch (jsTrim env.unameOut) = some ba)
    (h3 : env.resolveCode ≠ 0) :
    installK0s "latest" env
      = ([IEvent.uname, IEvent.resolveLatest],
         .error (.resolveFailed env.resolveCode)) := by
  simp [installK0s, h1, h2, h3]

/-- Helper: `"latest"` with a successful resolution continues into
`installTail` with the captured `actualVersion`. -/
theorem installK0s_resolve_ok (env : InstallEnv) (ba : String)
    (h1 : env.unameCode = 0) (h2 : mapArch (jsTrim env.unameOut) = some ba)
    (h3 : env.resolveCode = 0) :
    installK0s "latest" env
      = installTail (actualVersion "latest" env) ba env
          [IEvent.uname, IEvent.resolveLatest] := by
  simp [installK0s, h1, h2, h3]

/-- Helper: an explicit version specifier continues into `installTail`
without any resolution call. -/
theorem installK0s_explicit (version : String) (env : InstallEnv)
    (ba : String) (h1 : env.unameCode = 0)
    (h2 : mapArch (jsTrim env.unameOut) = some ba)
    (h3 : version ≠ "latest") :
    installK0s version env = installTail version ba env [IEvent.uname] := by
  simp [installK0s, h1, h2, h3]

/-- Helper: `installTail` adds no release-metadata query to the trace it
is handed. -/
theorem installTail_resolveCount (ver ba : String) (env : InstallEnv)
    (ev : List IEvent) :
    resolveCount (installTail ver ba env ev).1 = resolveCount ev := by
  unfold installTail
  split_ifs <;>
    simp [resolveCount, isResolveEvent, List.countP_append, List.countP_cons]

/-- Helper: a download event in an `installTail` trace either was already
in the handed-over trace or carries exactly the URL built from the
version and architecture `installTail` received. -/
theorem installTail_download_mem (ver ba : String) (env : InstallEnv)
    (ev : List IEvent) (url : String)
    (h : IEvent.download url ∈ (installTail ver ba env ev).1) :
    IEvent.download url ∈ ev ∨ url = downloadUrl ver ba := by
  unfold installTail at h
  split_ifs at h <;> simp at h <;> tauto

/-- Helper: `removeTmp` appears in an `installTail` trace (that did not
already contain it) exactly when both the download and the privileged
install exited 0 — the `rm` is a plain sequential statement, skipped as
soon as an earlier step throws. -/
theorem installTail_removeTmp (ver ba : String) (env : InstallEnv)
    (ev : List IEvent) (hne : IEvent.removeTmp ∉ ev) :
    IEvent.removeTmp ∈ (installTail ver ba env ev).1 ↔
      env.downloadCode = 0 ∧ env.installCode = 0 := by
  unfold installTail
  split_ifs <;> simp_all

/-- Counterexample for C3: in the run where the version specifier is
`"latest"` but `uname -m` reports the unsupported `mips64`, installation
aborts before the resolution step, so version resolution runs zero times —
not "exactly once when the version specifier equals latest". -/
theorem latest_resolution_skipped_on_bad_arch :
    resolveCount
      (installK0s "latest" ⟨0, "mips64", 0, fun _ => "v", 0, 0, 0, 0⟩).1
      = 0 := by
  decide

/-- C3 (amended): version resolution is invoked at most once per run —
never when the specifier differs from `"latest"`, and exactly once when
the specifier is `"latest"` and the preceding architecture detection
succeeded with a supported value (an earlier failure aborts the run
before resolution); every download URL in the trace is built from
`actualVersion`, the value captured at that single resolution (invocation
index 0 of the upstream endpoint) or the explicit specifier — never from
a later re-resolution. -/
theorem version_resolved_at_most_once (version : String) (env : InstallEnv) :
    resolveCount (installK0s version env).1 ≤ 1 ∧
    (version ≠ "latest" → resolveCount (installK0s version env).1 = 0) ∧
    (version = "latest" → env.unameCode = 0 →
      (mapArch (jsTrim env.unameOut)).isSome →
      resolveCount (installK0s version env).1 = 1) ∧
    (∀ url, IEvent.download url ∈ (installK0s version env).1 →
      ∃ ba, mapArch (jsTrim env.unameOut) = some ba ∧
        url = downloadUrl (actualVersion version env) ba) := by
  by_cases h1 : env.unameCode = 0
  case neg =>
    rw [installK0s_uname_failed version env h1]
    refine ⟨by simp [resolveCount, isResolveEvent],
      fun _ => by simp [resolveCount, isResolveEvent],
      fun _ hu _ => absurd hu h1, fun url hmem => by simp at hmem⟩
  case pos =>
    cases hba : mapArch (jsTrim env.unameOut) with
    | none =>
      rw [installK0s_arch_none version env h1 hba]
      refine ⟨by simp [resolveCount, isResolveEvent],
        fun _ => by simp [resolveCount, isResolveEvent],
        fun _ _ hm => by simp [hba] at hm, fun url hmem => by simp at hmem⟩
    | some ba =>
      by_cases hv : version = "latest"
      case neg =>
        rw [installK0s_explicit version env ba h1 hba hv]
        refine ⟨?_, fun _ => ?_, fun hvv => absurd hvv hv, ?_⟩
        · rw [installTail_resolveCount]
          simp [resolveCount, isResolveEvent]
        · rw [installTail_resolveCount]
          simp [resolveCount, isResolveEvent]
        · intro url hmem
          rcases installTail_download_mem _ _ _ _ _ hmem with h | h
          · simp at h
          · exact ⟨ba, rfl, by simpa [actualVersion, hv] using h⟩
      case pos =>
        subst hv
        by_cases h3 : env.resolveCode = 0
        case neg =>
          rw [installK0s_resolve_failed env ba h1 hba h3]
          refine ⟨by simp [resolveCount, isResolveEvent],
            fun hvv => absurd rfl hvv, fun _ _ _ => ?_,
            fun url hmem => by simp at hmem⟩
          simp [resolveCount, isResolveEvent, List.countP_cons]
        case pos =>
          rw [installK0s_resolve_ok env ba h1 hba h3]
          refine ⟨?_, fun hvv => absurd rfl hvv, fun _ _ _ => ?_, ?_⟩
          · rw [installTail_resolveCount]
            simp [resolveCount, isResolveEvent, List.countP_cons]
          · rw [installTail_resolveCount]
            simp [resolveCount, isResolveEvent, List.countP_cons]
          · intro url hmem
            rcases installTail_download_mem _ _ _ _ _ hmem with h | h
            · simp at h
            · exact ⟨ba, rfl, h⟩

/-- Witness for the amended C3: an explicit version specifier leads to
zero resolutions. -/
theorem version_resolved_at_most_once_witness :
    resolveCount
      (installK0s "v1.30.0" ⟨0, "x86_64", 0, fun _ => "v", 0, 0, 0, 0⟩).1
      = 0 :=
  (version_resolved_at_most_once "v1.30.0"
      ⟨0, "x86_64", 0, fun _ => "v", 0, 0, 0, 0⟩).2.1 (by decide)

/-- Counterexample for C5: in the run where the privileged install step
fails (exit code 1), the `rm` of the temporary download file never runs —
the removal is a plain sequential statement, not a scoped/`finally`
cleanup, so the file is NOT removed regardless of outcome. -/
theorem tmp_left_behind_on_install_failure :
    IEvent.removeTmp ∉
      (installK0s "v1.30.0" ⟨0, "x86_64", 0, fun _ => "v", 0, 1, 0, 0⟩).1 ∧
    (installK0s "v1.30.0" ⟨0, "x86_64", 0, fun _ => "v", 0, 1, 0, 0⟩).2
      = .error (.installCmdFailed 1) := by
  decide

/-- C5 (amended): once the download and the privileged install both
succeed, the temporary file at the fixed scratch path is removed — the
removal precedes the verification step, so it happens even when the later
verification fails; but when the privileged install itself fails, the
removal is skipped (no scoped cleanup). -/
theorem tmp_removed_after_successful_install (version : String)
    (env : InstallEnv) (hu : env.unameCode = 0)
    (ha : (mapArch (jsTrim env.unameOut)).isSome)
    (hr : version = "latest" → env.resolveCode = 0) :
    (env.downloadCode = 0 → env.installCode = 0 →
      IEvent.removeTmp ∈ (installK0s version env).1) ∧
    (env.installCode ≠ 0 → IEvent.removeTmp ∉ (installK0s version env).1) := by
  obtain ⟨ba, hba⟩ := Option.isSome_iff_exists.mp ha
  have key : IEvent.removeTmp ∈ (installK0s version env).1 ↔
      env.downloadCode = 0 ∧ env.installCode = 0 := by
    by_cases hv : version = "latest"
    · subst hv
      rw [installK0s_resolve_ok env ba hu hba (hr rfl)]
      exact installTail_removeTmp _ _ _ _ (by simp)
    · rw [installK0s_explicit version env ba hu hba hv]
      exact installTail_removeTmp _ _ _ _ (by simp)
  exact ⟨fun h1 h2 => key.mpr ⟨h1, h2⟩,
    fun h1 h2 => h1 (key.mp h2).2⟩

/-- Witness for the amended C5: removal still occurs when the later
verification step fails. -/
theorem tmp_removed_after_successful_install_witness :
    IEvent.removeTmp ∈
      (installK0s "v1.30.0" ⟨0, "x86_64", 0, fun _ => "v", 0, 0, 0, 1⟩).1 :=
  (tmp_removed_after_successful_install "v1.30.0"
      ⟨0, "x86_64", 0, fun _ => "v", 0, 0, 0, 1⟩ rfl (by decide)
      (fun _ => rfl)).1 rfl rfl

end SetupK0s

namespace SetupK0s

/-- C2: the architecture switch maps `x86_64` to `amd64`, `aarch64` and
`arm64` to `arm64`, `armv7l` to `arm`, and is `none` (the
`Unsupported architecture` throw) on every other string; and whenever the
trimmed `uname -m` output is unsupported, `installK0s` fails with the
unsupported-architecture error and its trace contains no network event
(neither version resolution nor download). -/
theorem arch_mapping_total_and_prenetwork :
    mapArch "x86_64" = some "amd64" ∧
    mapArch "aarch64" = some "arm64" ∧
    mapArch "arm64" = some "arm64" ∧
    mapArch "armv7l" = some "arm" ∧
    (∀ a : String, a ≠ "x86_64" → a ≠ "aarch64" → a ≠ "arm64" → a ≠ "armv7l" →
      mapArch a = none) ∧
    (∀ (version : String) (env : InstallEnv),
      env.unameCode = 0 →
      mapArch (jsTrim env.unameOut) = none →
      (installK0s version env).2
          = .error (.unsupportedArchitecture (jsTrim env.unameOut)) ∧
      ∀ e ∈ (installK0s version env).1, isNetworkEvent e = false) := by
  refine ⟨rfl, rfl, rfl, rfl, ?_, ?_⟩
  · intro a h1 h2 h3 h4
    simp [mapArch, h1, h2, h3, h4]
  · intro version env hcode hmap
    constructor
    · simp [installK0s, hcode, hmap]
    · intro e he
      simp [installK0s, hcode, hmap] at he
      simp [he, isNetworkEvent]

/-- Witness for C2 at a concrete environment reporting `mips64`. -/
theorem arch_mapping_total_and_prenetwork_witness :
    (installK0s "latest"
        ⟨0, "mips64", 0, fun _ => "v1", 0, 0, 0, 0⟩).2
      = .error (.unsupportedArchitecture (jsTrim "mips64")) :=
  ((arch_mapping_total_and_prenetwork.2.2.2.2.2 "latest"
      ⟨0, "mips64", 0, fun _ => "v1", 0, 0, 0, 0⟩ rfl (by decide)).1)

/-- Helper: whenever the polling loop reports `ready n`, the four-layer
chain of cycle `n` itself evaluated to true. -/
theorem waitLoop_ready_imp_cycleReady (timeout : Option Int)
    (probes : Nat → ProbeCycle) :
    ∀ fuel n0 n, waitLoop timeout probes fuel n0 = PollResult.ready n →
      cycleReady (probes n) = true := by
  intro fuel
  induction fuel with
  | zero => intro n0 n h; simp [waitLoop] at h
  | succ f ih =>
    intro n0 n h
    rw [waitLoop] at h
    by_cases hd : deadlineExceeded (elapsedAt n0) timeout
    · simp [hd] at h
    · by_cases hc : cycleReady (probes n0)
      · simp [hd, hc] at h
        exact h ▸ hc
      · simp [hd, hc] at h
        exact ih _ _ h

/-- C1: the loop reports `Ready` for cycle `n` only if all four layered
checks — service status, API reachability, the all-nodes-Ready grep and
the all-system-pods grep — pass together within cycle `n` itself (the
greps pass by exiting nonzero); consequently, under any probe environment
in which the node check fails in every cycle where the pod check would
pass, no amount of polling ever reports `Ready`: no layer result is
carried over from an earlier cycle. -/
theorem ready_only_if_all_layers_same_cycle (timeout : Option Int)
    (probes : Nat → ProbeCycle) (fuel n0 n : Nat) :
    (waitLoop timeout probes fuel n0 = PollResult.ready n →
      (probes n).statusCode = 0 ∧ (probes n).kubectlCode = 0 ∧
      (probes n).nodesGrepCode ≠ 0 ∧ (probes n).podsGrepCode ≠ 0) ∧
    ((∀ m, (probes m).podsGrepCode ≠ 0 → (probes m).nodesGrepCode = 0) →
      waitLoop timeout probes fuel n0 ≠ PollResult.ready n) := by
  constructor
  · intro h
    have hc := waitLoop_ready_imp_cycleReady timeout probes fuel n0 n h
    simpa [cycleReady] using hc
  · intro hreg h
    have hc := waitLoop_ready_imp_cycleReady timeout probes fuel n0 n h
    simp [cycleReady] at hc
    exact hc.2.2.1 (hreg n hc.2.2.2)

/-- Witness for C1: with nodes regressed in the very cycle where pods
pass, the loop never reports `Ready`. -/
theorem ready_only_if_all_layers_same_cycle_witness :
    waitLoop (some 300) (fun _ => ⟨0, 0, 0, 1⟩) 3 0 ≠ PollResult.ready 0 :=
  (ready_only_if_all_layers_same_cycle (some 300) (fun _ => ⟨0, 0, 0, 1⟩)
      3 0 0).2 (fun _ _ => rfl)

/-- Counterexample for C4: with `timeout = 0` and probes that never pass,
the poller does NOT time out at the first deadline check (cycle 0): the
first check compares `elapsed = 0 > 0`, which is false, so a full probe
cycle and a 5 s sleep happen first and the timeout fires at the second
deadline check (cycle 1). -/
theorem timeout_zero_passes_first_check :
    waitLoop (some 0) (fun _ => ⟨1, 1, 0, 0⟩) 2 0 = PollResult.timedOut 1 ∧
    waitLoop (some 0) (fun _ => ⟨1, 1, 0, 0⟩) 2 0 ≠ PollResult.timedOut 0 := by
  decide

/-- C4 (amended): given `timeout = 0` and probe results under which the
cluster never becomes ready, the poller passes the first deadline check
(elapsed `0 > 0` is false), performs exactly one full probe cycle and one
sleep, and times out at the second deadline check; diagnostics are then
attempted exactly once — the `timedOutErr` constructor records the single
`showDiagnostics` invocation — before the fatal timeout error is raised. -/
theorem timeout_zero_times_out_second_check (probes : Nat → ProbeCycle)
    (d : DiagEnv) (fuel : Nat)
    (hnr : ∀ m, cycleReady (probes m) = false) (hf : 2 ≤ fuel) :
    waitLoop (some 0) probes fuel 0 = PollResult.timedOut 1 ∧
    waitForClusterReady (some 0) probes d fuel
      = WaitOutcome.timedOutErr (showDiagnostics d) := by
  obtain ⟨k, rfl⟩ : ∃ k, fuel = k + 2 := ⟨fuel - 2, by omega⟩
  have h1 : waitLoop (some 0) probes (k + 2) 0 = PollResult.timedOut 1 := by
    rw [waitLoop]
    have hd0 : deadlineExceeded (elapsedAt 0) (some 0) = false := by
      simp [deadlineExceeded, elapsedAt]
    rw [hd0]
    simp only [Bool.false_eq_true, if_false, hnr 0]
    rw [waitLoop]
    have hd1 : deadlineExceeded (elapsedAt 1) (some 0) = true := by
      simp [deadlineExceeded, elapsedAt]
    simp [hd1]
  exact ⟨h1, by simp [waitForClusterReady, h1]⟩

/-- Witness for the amended C4 at a concrete environment. -/
theorem timeout_zero_times_out_second_check_witness :
    waitForClusterReady (some 0) (fun _ => ⟨1, 1, 0, 0⟩)
        ⟨.exitCode 0, .exitCode 0, .exitCode 0, .exitCode 0, .exitCode 0⟩ 2
      = WaitOutcome.timedOutErr
          (showDiagnostics
            ⟨.exitCode 0, .exitCode 0, .exitCode 0, .exitCode 0,
              .exitCode 0⟩) :=
  (timeout_zero_times_out_second_check (fun _ => ⟨1, 1, 0, 0⟩)
      ⟨.exitCode 0, .exitCode 0, .exitCode 0, .exitCode 0, .exitCode 0⟩ 2
      (fun _ => (by decide :
        cycleReady (⟨1, 1, 0, 0⟩ : ProbeCycle) = false)) (by decide)).2

/-- C9: when the timeout input does not parse to a number (`parseInt`
yields `NaN`, modelled as `none`), the deadline comparison
`elapsed > timeout` is false in every cycle, so with probe results under
which the cluster never becomes ready the loop neither reports ready nor
times out at any fuel bound: it never terminates. -/
theorem nan_timeout_never_terminates (s : String)
    (probes : Nat → ProbeCycle)
    (hs : timeoutFromInput s = none)
    (hnr : ∀ m, cycleReady (probes m) = false) :
    (∀ e : Int, deadlineExceeded e (timeoutFromInput s) = false) ∧
    ∀ fuel n0, waitLoop (timeoutFromInput s) probes fuel n0
      = PollResult.fuelOut := by
  rw [hs]
  refine ⟨fun _ => rfl, ?_⟩
  intro fuel
  induction fuel with
  | zero => intro n0; rfl
  | succ f ih =>
    intro n0
    rw [waitLoop]
    simp only [deadlineExceeded, Bool.false_eq_true, if_false, hnr n0]
    exact ih (n0 + 1)

/-- Witness for C9: the unparsable timeout input `"abc"` with probes that
never pass leaves the loop running at any fuel bound tried. -/
theorem nan_timeout_never_terminates_witness :
    waitLoop (timeoutFromInput "abc") (fun _ => ⟨1, 1, 0, 0⟩) 4 0
      = PollResult.fuelOut :=
  (nan_timeout_never_terminates "abc" (fun _ => ⟨1, 1, 0, 0⟩)
      (by decide) (fun _ => (by decide :
        cycleReady (⟨1, 1, 0, 0⟩ : ProbeCycle) = false))).2 4 0

/-- Helper: a list of pure exit-code outcomes (whatever the codes) is run
to the end without tripping the warning. -/
theorem runDiagProbes_all_exit (l : List DiagOutcome)
    (h : ∀ o ∈ l, ∃ c, o = DiagOutcome.exitCode c) :
    runDiagProbes l = (l.length, false) := by
  induction l with
  | nil => rfl
  | cons o rest ih =>
    obtain ⟨c, rfl⟩ := h o (by simp)
    simp [runDiagProbes, ih fun o ho => h o (by simp [ho])]

/-- Helper: the first thrown exception stops the sequence after the
exit-code probes before it and trips the warning. -/
theorem runDiagProbes_thrown (pre post : List DiagOutcome) (m : String)
    (h : ∀ o ∈ pre, ∃ c, o = DiagOutcome.exitCode c) :
    runDiagProbes (pre ++ DiagOutcome.thrown m :: post)
      = (pre.length + 1, true) := by
  induction pre with
  | nil => rfl
  | cons o rest ih =>
    obtain ⟨c, rfl⟩ := h o (by simp)
    simp [runDiagProbes, ih fun o ho => h o (by simp [ho])]

/-- C8: the five diagnostic probes are best-effort and independently
failure-tolerant.  (i) When every probe merely reports an exit code —
failures included, since all five run with `ignoreReturnCode: true` — all
five are attempted and no warning is logged.  (ii) A probe that throws is
caught: the probes before it all ran, the warning is logged, and
`showDiagnostics` still returns normally.  (iii) Whenever the polling
loop timed out, `waitForClusterReady` raises the original fatal timeout
error (`timedOutErr`, carrying whatever the diagnostics did): no
diagnostics behaviour masks or replaces it. -/
theorem diagnostics_best_effort_nonmasking (d : DiagEnv)
    (timeout : Option Int) (probes : Nat → ProbeCycle) (fuel k : Nat) :
    ((∀ o ∈ diagProbeList d, ∃ c, o = DiagOutcome.exitCode c) →
      (showDiagnostics d).probesAttempted = 5 ∧
      (showDiagnostics d).warningLogged = false) ∧
    (∀ (pre post : List DiagOutcome) (m : String),
      diagProbeList d = pre ++ DiagOutcome.thrown m :: post →
      (∀ o ∈ pre, ∃ c, o = DiagOutcome.exitCode c) →
      (showDiagnostics d).probesAttempted = pre.length + 1 ∧
      (showDiagnostics d).warningLogged = true) ∧
    (waitLoop timeout probes fuel 0 = PollResult.timedOut k →
      waitForClusterReady timeout probes d fuel
        = WaitOutcome.timedOutErr (showDiagnostics d)) := by
  refine ⟨?_, ?_, ?_⟩
  · intro h
    have h5 := runDiagProbes_all_exit (diagProbeList d) h
    simp only [diagProbeList] at h5
    constructor <;> simp [showDiagnostics, diagProbeList, h5]
  · intro pre post m hsplit h
    have hr := runDiagProbes_thrown pre post m h
    constructor <;> simp [showDiagnostics, hsplit, hr]
  · intro h
    simp [waitForClusterReady, h]

/-- Witness for C8: one probe fails with exit code 1, the other four still
run — all five are attempted and the fatal timeout error is still
raised. -/
theorem diagnostics_best_effort_nonmasking_witness :
    (showDiagnostics ⟨.exitCode 1, .exitCode 0, .exitCode 0, .exitCode 0,
        .exitCode 0⟩).probesAttempted = 5 ∧
    waitForClusterReady (some 0) (fun _ => ⟨1, 1, 0, 0⟩)
        ⟨.exitCode 1, .exitCode 0, .exitCode 0, .exitCode 0, .exitCode 0⟩ 2
      = WaitOutcome.timedOutErr
          (showDiagnostics ⟨.exitCode 1, .exitCode 0, .exitCode 0,
            .exitCode 0, .exitCode 0⟩) := by
  have h := diagnostics_best_effort_nonmasking
    ⟨.exitCode 1, .exitCode 0, .exitCode 0, .exitCode 0, .exitCode 0⟩
    (some 0) (fun _ => ⟨1, 1, 0, 0⟩) 2 1
  refine ⟨(h.1 ?_).1, h.2.2 (by decide)⟩
  intro o ho
  simp [diagProbeList] at ho
  rcases ho with rfl | rfl | rfl | rfl | rfl <;> exact ⟨_, rfl⟩

/-- Helper: the successful `startK0s` run performs exactly this event
sequence. -/
theorem startK0s_ok (env : StartEnv) (h1 : env.installCtrlCode = 0)
    (h2 : env.startCode = 0) (h3 : env.kubeconfigCode = 0)
    (h4 : env.chmodCode = 0) :
    startK0s env
      = ([SEvent.installCtrl, SEvent.startSvc, SEvent.sleepMs 10000,
          SEvent.mkdirKube (kubeDir env.home), SEvent.extractKubeconfig,
          SEvent.writeFile (kubeconfigPath env.home) env.kubeconfigOut,
          SEvent.chmod "600" (kubeconfigPath env.home),
          SEvent.setOutput "kubeconfig" (kubeconfigPath env.home),
          SEvent.exportVar "KUBECONFIG" (kubeconfigPath env.home)],
         .ok ()) := by
  simp [startK0s, h1, h2, h3, h4]

/-- Counterexample for C6: in the run where the controller-service
registration fails, `startK0s` aborts before the extraction, so the
credential file is written zero times — not "exactly once in every
run". -/
theorem kubeconfig_not_written_on_early_failure :
    (startK0s ⟨"/root", 1, 0, false, 0, "cfg", 0⟩).1.countP isWriteEvent
      = 0 := by
  decide

/-- C6 (amended): in every run the credential file is written at most
once; any write that happens targets the fixed path
`<home>/.kube/config` with the extracted content and is immediately
followed by the `chmod 600` restricting it to the owner, and no later
event of the run rewrites it; when the run succeeds, the write happened
exactly once and the path was published both as the `kubeconfig` output
and as the exported `KUBECONFIG` variable. -/
theorem kubeconfig_written_at_most_once (env : StartEnv) :
    (startK0s env).1.countP isWriteEvent ≤ 1 ∧
    (∀ p c, SEvent.writeFile p c ∈ (startK0s env).1 →
      p = kubeconfigPath env.home ∧ c = env.kubeconfigOut ∧
      List.IsInfix [SEvent.writeFile p c,
        SEvent.chmod "600" (kubeconfigPath env.home)] (startK0s env).1) ∧
    ((startK0s env).2 = .ok () →
      (startK0s env).1.countP isWriteEvent = 1 ∧
      SEvent.setOutput "kubeconfig" (kubeconfigPath env.home)
        ∈ (startK0s env).1 ∧
      SEvent.exportVar "KUBECONFIG" (kubeconfigPath env.home)
        ∈ (startK0s env).1) := by
  by_cases h1 : env.installCtrlCode = 0
  case neg =>
    have h : startK0s env
        = ([SEvent.installCtrl],
           .error (.installCtrlFailed env.installCtrlCode)) := by
      simp [startK0s, h1]
    rw [h]
    refine ⟨by simp [isWriteEvent], fun p c hmem => by simp at hmem,
      fun hok => by simp at hok⟩
  case pos =>
  by_cases h2 : env.startCode = 0
  case neg =>
    have h : startK0s env
        = ([SEvent.installCtrl, SEvent.startSvc],
           .error (.startFailed env.startCode)) := by
      simp [startK0s, h1, h2]
    rw [h]
    refine ⟨by simp [isWriteEvent], fun p c hmem => by simp at hmem,
      fun hok => by simp at hok⟩
  case pos =>
  by_cases h3 : env.kubeconfigCode = 0
  case neg =>
    have h : startK0s env
        = ([SEvent.installCtrl, SEvent.startSvc, SEvent.sleepMs 10000,
            SEvent.mkdirKube (kubeDir env.home), SEvent.extractKubeconfig],
           .error (.kubeconfigFailed env.kubeconfigCode)) := by
      simp [startK0s, h1, h2, h3]
    rw [h]
    refine ⟨by simp [isWriteEvent], fun p c hmem => by simp at hmem,
      fun hok => by simp at hok⟩
  case pos =>
  by_cases h4 : env.chmodCode = 0
  case neg =>
    have h : startK0s env
        = ([SEvent.installCtrl, SEvent.startSvc, SEvent.sleepMs 10000,
            SEvent.mkdirKube (kubeDir env.home), SEvent.extractKubeconfig,
            SEvent.writeFile (kubeconfigPath env.home) env.kubeconfigOut,
            SEvent.chmod "600" (kubeconfigPath env.home)],
           .error (.chmodFailed env.chmodCode)) := by
      simp [startK0s, h1, h2, h3, h4]
    rw [h]
    refine ⟨by simp [isWriteEvent], ?_, fun hok => by simp at hok⟩
    intro p c hmem
    simp [isWriteEvent] at hmem
    obtain ⟨hp, hc⟩ := hmem
    subst hp; subst hc
    exact ⟨rfl, rfl,
      [SEvent.installCtrl, SEvent.startSvc, SEvent.sleepMs 10000,
        SEvent.mkdirKube (kubeDir env.home), SEvent.extractKubeconfig],
      [], by simp⟩
  case pos =>
    rw [startK0s_ok env h1 h2 h3 h4]
    refine ⟨by simp [isWriteEvent], ?_, fun _ => ⟨by simp [isWriteEvent],
      by simp, by simp⟩⟩
    intro p c hmem
    simp [isWriteEvent] at hmem
    obtain ⟨hp, hc⟩ := hmem
    subst hp; subst hc
    exact ⟨rfl, rfl,
      [SEvent.installCtrl, SEvent.startSvc, SEvent.sleepMs 10000,
        SEvent.mkdirKube (kubeDir env.home), SEvent.extractKubeconfig],
      [SEvent.setOutput "kubeconfig" (kubeconfigPath env.home),
        SEvent.exportVar "KUBECONFIG" (kubeconfigPath env.home)], by simp⟩

/-- Witness for the amended C6: the successful run writes the credential
file exactly once and publishes its path. -/
theorem kubeconfig_written_at_most_once_witness :
    (startK0s ⟨"/root", 0, 0, false, 0, "cfg", 0⟩).1.countP isWriteEvent
        = 1 ∧
    SEvent.setOutput "kubeconfig" (kubeconfigPath "/root")
      ∈ (startK0s ⟨"/root", 0, 0, false, 0, "cfg", 0⟩).1 :=
  ⟨((kubeconfig_written_at_most_once
        ⟨"/root", 0, 0, false, 0, "cfg", 0⟩).2.2 (by decide)).1,
   ((kubeconfig_written_at_most_once
        ⟨"/root", 0, 0, false, 0, "cfg", 0⟩).2.2 (by decide)).2.1⟩

/-- Helper: a failing installation phase ends the run with the marker and
the installer events as the whole trace. -/
theorem mainPhase_install_error (env : MainEnv) (fuel : Nat)
    (tr : List IEvent) (c : InstallCause)
    (hi : installK0s (if env.versionInput = "" then "latest"
      else env.versionInput) env.install = (tr, .error c)) :
    mainPhase env fuel
      = (MEvent.saveState "isPost" "true" :: tr.map MEvent.installEv,
         .done (.error (.installFailed c))) := by
  simp [mainPhase, hi]

/-- Helper: with both phases successful and readiness waiting not
requested, the run ends without entering the poller. -/
theorem mainPhase_no_wait (env : MainEnv) (fuel : Nat)
    (tri : List IEvent) (trs : List SEvent)
    (hi : installK0s (if env.versionInput = "" then "latest"
      else env.versionInput) env.install = (tri, .ok ()))
    (hs : startK0s env.start = (trs, .ok ()))
    (ht : env.waitInput ≠ "true") :
    mainPhase env fuel
      = (MEvent.saveState "isPost" "true" ::
          (tri.map MEvent.installEv ++ trs.map MEvent.startEv),
         .done (.ok ())) := by
  simp [mainPhase, hi, hs, ht]

/-- Helper: with both phases successful and `wait-for-ready` exactly
`"true"`, the run enters the poller; whatever the poller returns, the
trace is the same. -/
theorem mainPhase_wait_trace (env : MainEnv) (fuel : Nat)
    (tri : List IEvent) (trs : List SEvent)
    (hi : installK0s (if env.versionInput = "" then "latest"
      else env.versionInput) env.install = (tri, .ok ()))
    (hs : startK0s env.start = (trs, .ok ()))
    (ht : env.waitInput = "true") :
    (mainPhase env fuel).1
      = MEvent.saveState "isPost" "true" ::
          (tri.map MEvent.installEv
            ++ (trs.map MEvent.startEv ++ [MEvent.enterWait])) := by
  simp only [mainPhase, hi, hs, ht, if_true]
  split <;> simp

/-- Helper: a failing startup phase ends the run after the installer and
launcher events. -/
theorem mainPhase_start_error_eq (env : MainEnv) (fuel : Nat)
    (tri : List IEvent) (trs : List SEvent) (c : StartCause)
    (hi : installK0s (if env.versionInput = "" then "latest"
      else env.versionInput) env.install = (tri, .ok ()))
    (hs : startK0s env.start = (trs, .error c)) :
    mainPhase env fuel
      = (MEvent.saveState "isPost" "true" ::
          (tri.map MEvent.installEv ++ trs.map MEvent.startEv),
         .done (.error (.startFailed c))) := by
  simp [mainPhase, hi, hs]

/-- C7: in every main-phase run — whatever the environment, in particular
in every run where installation subsequently fails — the very first
effect is persisting the cross-phase marker `isPost = 'true'`
(`core.saveState`, index.ts line 38), before any installation event: the
teardown phase remains eligible to execute. -/
theorem marker_saved_before_any_install_step (env : MainEnv) (fuel : Nat) :
    (mainPhase env fuel).1.head?
      = some (MEvent.saveState "isPost" "true") ∧
    ∃ rest, (mainPhase env fuel).1
      = MEvent.saveState "isPost" "true" :: rest := by
  have key : ∃ rest, (mainPhase env fuel).1
      = MEvent.saveState "isPost" "true" :: rest := by
    rcases hi : installK0s (if env.versionInput = "" then "latest"
      else env.versionInput) env.install with ⟨tri, ir⟩
    cases ir with
    | error c => rw [mainPhase_install_error env fuel tri c hi]; exact ⟨_, rfl⟩
    | ok u =>
      cases u
      rcases hs : startK0s env.start with ⟨trs, sr⟩
      cases sr with
      | error c =>
        rw [mainPhase_start_error_eq env fuel tri trs c hi hs]
        exact ⟨_, rfl⟩
      | ok u =>
        cases u
        by_cases ht : env.waitInput = "true"
        · rw [mainPhase_wait_trace env fuel tri trs hi hs ht]
          exact ⟨_, rfl⟩
        · rw [mainPhase_no_wait env fuel tri trs hi hs ht]
          exact ⟨_, rfl⟩
  obtain ⟨rest, h⟩ := key
  exact ⟨by rw [h]; rfl, rest, h⟩

/-- Counterexample for C10: a run whose `wait-for-ready` input is exactly
`"true"` but whose installation fails (unsupported architecture) never
enters the readiness poller, so "entered if and only if the input is
`true`" fails in the right-to-left direction. -/
theorem poller_skipped_despite_true_input :
    MEvent.enterWait ∉
      (mainPhase ⟨"latest", "true", "60",
        ⟨0, "mips64", 0, fun _ => "v", 0, 0, 0, 0⟩,
        ⟨"/root", 0, 0, false, 0, "cfg", 0⟩,
        fun _ => ⟨0, 0, 1, 1⟩,
        ⟨.exitCode 0, .exitCode 0, .exitCode 0, .exitCode 0,
          .exitCode 0⟩⟩ 3).1 ∧
    (⟨"latest", "true", "60",
        ⟨0, "mips64", 0, fun _ => "v", 0, 0, 0, 0⟩,
        ⟨"/root", 0, 0, false, 0, "cfg", 0⟩,
        fun _ => ⟨0, 0, 1, 1⟩,
        ⟨.exitCode 0, .exitCode 0, .exitCode 0, .exitCode 0,
          .exitCode 0⟩⟩ : MainEnv).waitInput = "true" := by
  constructor
  · decide
  · rfl

/-- C10 (amended): the readiness poller is entered only if the
`wait-for-ready` input string is exactly the lowercase `"true"`; for
every other value (including `"True"`, `"1"`, or empty) it is skipped
entirely; and when the input is exactly `"true"` it is entered provided
the preceding installation and startup phases succeeded. -/
theorem poller_entered_iff_exact_true (env : MainEnv) (fuel : Nat) :
    (MEvent.enterWait ∈ (mainPhase env fuel).1 → env.waitInput = "true") ∧
    (env.waitInput ≠ "true" →
      MEvent.enterWait ∉ (mainPhase env fuel).1) ∧
    (env.waitInput = "true" →
      (installK0s (if env.versionInput = "" then "latest"
        else env.versionInput) env.install).2 = .ok () →
      (startK0s env.start).2 = .ok () →
      MEvent.enterWait ∈ (mainPhase env fuel).1) := by
  have part2 : env.waitInput ≠ "true" →
      MEvent.enterWait ∉ (mainPhase env fuel).1 := by
    intro hni
    rcases hi : installK0s (if env.versionInput = "" then "latest"
      else env.versionInput) env.install with ⟨tri, ir⟩
    cases ir with
    | error c =>
      rw [mainPhase_install_error env fuel tri c hi]
      simp
    | ok u =>
      cases u
      rcases hs : startK0s env.start with ⟨trs, sr⟩
      cases sr with
      | error c =>
        rw [mainPhase_start_error_eq env fuel tri trs c hi hs]
        simp
      | ok u =>
        cases u
        rw [mainPhase_no_wait env fuel tri trs hi hs hni]
        simp
  refine ⟨?_, part2, ?_⟩
  · intro hmem
    by_cases h : env.waitInput = "true"
    · exact h
    · exact absurd hmem (part2 h)
  · intro ht hio hso
    rcases hi : installK0s (if env.versionInput = "" then "latest"
      else env.versionInput) env.install with ⟨tri, ir⟩
    rw [hi] at hio
    cases ir with
    | error c => simp at hio
    | ok u =>
      cases u
      rcases hs : startK0s env.start with ⟨trs, sr⟩
      rw [hs] at hso
      cases sr with
      | error c => simp at hso
      | ok u =>
        cases u
        rw [mainPhase_wait_trace env fuel tri trs hi hs ht]
        simp

/-- Witness for the amended C10: the input `"True"` (wrong case) skips
the poller. -/
theorem poller_entered_iff_exact_true_witness :
    MEvent.enterWait ∉
      (mainPhase ⟨"latest", "True", "60",
        ⟨0, "x86_64", 0, fun _ => "v", 0, 0, 0, 0⟩,
        ⟨"/root", 0, 0, false, 0, "cfg", 0⟩,
        fun _ => ⟨0, 0, 1, 1⟩,
        ⟨.exitCode 0, .exitCode 0, .exitCode 0, .exitCode 0,
          .exitCode 0⟩⟩ 3).1 :=
  (poller_entered_iff_exact_true ⟨"latest", "True", "60",
      ⟨0, "x86_64", 0, fun _ => "v", 0, 0, 0, 0⟩,
      ⟨"/root", 0, 0, false, 0, "cfg", 0⟩,
      fun _ => ⟨0, 0, 1, 1⟩,
      ⟨.exitCode 0, .exitCode 0, .exitCode 0, .exitCode 0,
        .exitCode 0⟩⟩ 3).2.1 (by decide)

end SetupK0s
